import Mathlib

/-!
Verification of the lockdown LSM ratchet
(`src/linux/security/lockdown/lockdown.c`).

The C module keeps one global, `kernel_locked_down`, holding the current
lockdown level (an `enum lockdown_reason` ordinal).  We embed it shallowly:
each C function becomes a pure Lean function taking the current value of
`kernel_locked_down` and returning its result paired with the new value.
Log output (`pr_notice`, `WARN`) is a side effect on the kernel log only;
the `WARN` condition of `lockdown_is_locked_down` is kept as an explicit
boolean field because the spec treats it as the "programming error" flag.
-/

namespace Lockdown

/-- errno: operation not permitted.  C returns `-EPERM`. -/
def EPERM : Int := 1

/-- errno: invalid argument.  C returns `-EINVAL`. -/
def EINVAL : Int := 22

/-- Modelled from the spec: the ordinal of `LOCKDOWN_NONE` in
`enum lockdown_reason`.  The enum itself lives in `include/linux/security.h`,
which is not under `src/`; the ordinals below follow the order of the
designated initializers of `lockdown_reasons` in `lockdown.c`, which the
spec fixes as a strict total order `None < IntegrityMax < ConfidentialityMax`
with every reason at exactly one position. -/
def LOCKDOWN_NONE : Nat := 0

/-- Modelled from the spec: ordinal of `LOCKDOWN_INTEGRITY_MAX`, the
integrity milestone, fifteen reasons above `LOCKDOWN_NONE` in the
initializer order of `lockdown_reasons`. -/
def LOCKDOWN_INTEGRITY_MAX : Nat := 15

/-- Modelled from the spec: ordinal of `LOCKDOWN_CONFIDENTIALITY_MAX`, the
topmost sentinel of `enum lockdown_reason`. -/
def LOCKDOWN_CONFIDENTIALITY_MAX : Nat := 21

/-- The static label table `lockdown_reasons[LOCKDOWN_CONFIDENTIALITY_MAX+1]`,
indexed by reason ordinal.  Every slot of the C array is filled by a
designated initializer, so no entry is `none` (NULL). -/
def lockdown_reasons : List (Option String) :=
  [some "none",
   some "unsigned module loading",
   some "/dev/mem,kmem,port",
   some "/dev/efi_test access",
   some "kexec of unsigned images",
   some "hibernation",
   some "direct PCI access",
   some "raw io port access",
   some "raw MSR access",
   some "modifying ACPI tables",
   some "direct PCMCIA CIS storage",
   some "reconfiguration of serial port IO",
   some "unsafe module parameters",
   some "unsafe mmio",
   some "debugfs access",
   some "integrity",
   some "/proc/kcore access",
   some "use of kprobes",
   some "use of bpf to read kernel RAM",
   some "unsafe use of perf",
   some "use of tracefs",
   some "confidentiality"]

/-- The array `lockdown_levels`: the three externally selectable levels,
in increasing order. -/
def lockdown_levels : List Nat :=
  [LOCKDOWN_NONE, LOCKDOWN_INTEGRITY_MAX, LOCKDOWN_CONFIDENTIALITY_MAX]

/-- C function `lock_kernel_down(where, level)`: if `kernel_locked_down >= level`
return `-EPERM` without mutation, else set `kernel_locked_down = level`
and return 0.  The `where` string feeds only the `pr_notice` line and is
omitted.  Result: (return value, new `kernel_locked_down`). -/
def lock_kernel_down (kernel_locked_down : Nat) (level : Nat) : Int × Nat :=
  if kernel_locked_down ≥ level then
    (-EPERM, kernel_locked_down)
  else
    (0, level)

/-- C function `lockdown_param(level)`: the `lockdown=` early parameter.  A NULL
argument is `-EINVAL`; `"integrity"` and `"confidentiality"` invoke
`lock_kernel_down` with the corresponding milestone, discarding its
return value, and return 0; anything else is `-EINVAL`. -/
def lockdown_param (level : Option String) (kernel_locked_down : Nat) : Int × Nat :=
  match level with
  | Option.none => (-EINVAL, kernel_locked_down)
  | Option.some s =>
    if s = "integrity" then
      (0, (lock_kernel_down kernel_locked_down LOCKDOWN_INTEGRITY_MAX).2)
    else if s = "confidentiality" then
      (0, (lock_kernel_down kernel_locked_down LOCKDOWN_CONFIDENTIALITY_MAX).2)
    else
      (-EINVAL, kernel_locked_down)

/-- Result of `lockdown_is_locked_down`: the returned errno, whether the
`WARN("Invalid lockdown reason")` fired, and the (unchanged) value of
`kernel_locked_down` after the call. -/
structure CheckResult where
  ret : Int
  warned : Bool
  state : Nat
deriving DecidableEq, Repr

/-- C function `lockdown_is_locked_down(what)`: `WARN` and return `-EPERM` when
`what >= LOCKDOWN_CONFIDENTIALITY_MAX`; otherwise return `-EPERM` when
`kernel_locked_down >= what` (emitting a notice when the reason has a
label) and 0 when not.  The global is never written. -/
def lockdown_is_locked_down (kernel_locked_down : Nat) (what : Nat) : CheckResult :=
  if what ≥ LOCKDOWN_CONFIDENTIALITY_MAX then
    ⟨-EPERM, true, kernel_locked_down⟩
  else if kernel_locked_down ≥ what then
    ⟨-EPERM, false, kernel_locked_down⟩
  else
    ⟨0, false, kernel_locked_down⟩

/-- The trace of observed levels after each request of a sequence of
`lock_kernel_down` calls starting from state `s`. -/
def raiseTrace (s : Nat) : List Nat → List Nat
  | [] => []
  | L :: rest =>
    let s' := (lock_kernel_down s L).2
    s' :: raiseTrace s' rest

/-- C function `lockdown_read`: build the `temp` line by appending, for each level of
`lockdown_levels` that has a label, either `"[label] "` (when
`kernel_locked_down == level`) or `"label "`, then overwrite the final
space with a newline when the line is non-empty. -/
def lockdown_read (kernel_locked_down : Nat) : String :=
  let temp := lockdown_levels.foldl (fun acc level =>
    match lockdown_reasons.getD level Option.none with
    | Option.some label =>
      if kernel_locked_down = level then
        acc ++ "[" ++ label ++ "] "
      else
        acc ++ label ++ " "
    | Option.none => acc) ""
  if temp.length > 0 then temp.dropRight 1 ++ "\n" else temp

/-- The newline stripping at the head of `lockdown_write`: when the copied
payload is non-empty and ends in a newline, drop that one final newline. -/
def strip_trailing_newline (state : String) : String :=
  if state.length ≠ 0 ∧ state.back = '\n' then state.dropRight 1 else state

/-- C function `lockdown_write(buf, n)`: copy the payload (`buf` models the
NUL-terminated copy made by `memdup_user_nul`, assumed free of interior
NUL bytes), strip one optional trailing newline, then scan
`lockdown_levels`; every level whose label equals the remaining text has
`lock_kernel_down` invoked, overwriting `err` (initially `-EINVAL`).
Return `err` if non-zero, else the byte count `n`. -/
def lockdown_write (kernel_locked_down : Nat) (buf : String) (n : Nat) : Int × Nat :=
  let state := strip_trailing_newline buf
  let r := lockdown_levels.foldl (fun (acc : Int × Nat) level =>
    match lockdown_reasons.getD level Option.none with
    | Option.some label =>
      if state = label then lock_kernel_down acc.2 level else acc
    | Option.none => acc) (-EINVAL, kernel_locked_down)
  if r.1 ≠ 0 then r else ((n : Int), r.2)

/-- The compile-time floor configuration of `lockdown_lsm_init`:
no forcing, `CONFIG_LOCK_DOWN_KERNEL_FORCE_INTEGRITY`, or
`CONFIG_LOCK_DOWN_KERNEL_FORCE_CONFIDENTIALITY`. -/
inductive ForceConfig where
  | noForce
  | forceIntegrity
  | forceConfidentiality
deriving DecidableEq, Repr

/-- C function `lockdown_lsm_init`: apply the compile-time forced floor, if any, by
calling `lock_kernel_down` (return value discarded) before the hooks are
registered.  Returns the resulting `kernel_locked_down`. -/
def lockdown_lsm_init (cfg : ForceConfig) (kernel_locked_down : Nat) : Nat :=
  match cfg with
  | ForceConfig.noForce => kernel_locked_down
  | ForceConfig.forceIntegrity =>
    (lock_kernel_down kernel_locked_down LOCKDOWN_INTEGRITY_MAX).2
  | ForceConfig.forceConfidentiality =>
    (lock_kernel_down kernel_locked_down LOCKDOWN_CONFIDENTIALITY_MAX).2

/-- C function `lift_kernel_lockdown`: set `kernel_locked_down = LOCKDOWN_NONE`. -/
def lift_kernel_lockdown (_kernel_locked_down : Nat) : Nat :=
  LOCKDOWN_NONE

/-- C function `sysrq_handle_lockdown_lift(key)`: call `lift_kernel_lockdown` when
`kernel_locked_down != LOCKDOWN_NONE`, else do nothing. -/
def sysrq_handle_lockdown_lift (_key : Int) (kernel_locked_down : Nat) : Nat :=
  if kernel_locked_down ≠ LOCKDOWN_NONE then
    lift_kernel_lockdown kernel_locked_down
  else
    kernel_locked_down

/-- The values `kernel_locked_down` can reach: it starts at
`LOCKDOWN_NONE`, every raise in the module (`lockdown_param`,
`lockdown_lsm_init`, `lockdown_write`) targets a member of
`lockdown_levels`, and the sysrq lift may fire at any time. -/
inductive Reachable : Nat → Prop where
  | init : Reachable LOCKDOWN_NONE
  | raise (s L : Nat) : Reachable s → L ∈ lockdown_levels →
      Reachable (lock_kernel_down s L).2
  | lift (k : Int) (s : Nat) : Reachable s →
      Reachable (sysrq_handle_lockdown_lift k s)

/-- One raise never lowers the state. -/
theorem lock_kernel_down_le (s L : Nat) : s ≤ (lock_kernel_down s L).2 := by
  unfold lock_kernel_down
  by_cases h : s ≥ L
  · simp [h]
  · simp [h]
    omega

/-- C1: `lock_kernel_down` succeeds (returns 0, sets the level to `L`)
exactly when the current level `C` is strictly below `L`, and otherwise
returns `-EPERM` leaving the level at `C`; hence over any sequence of
raise requests the observed level after each step is non-decreasing. -/
theorem lock_kernel_down_ratchet (C L : Nat) (reqs : List Nat) :
    lock_kernel_down C L = (if C < L then ((0 : Int), L) else (-EPERM, C))
    ∧ List.Chain' (· ≤ ·) (C :: raiseTrace C reqs) := by
  constructor
  · unfold lock_kernel_down
    by_cases h : C ≥ L
    · have h' : ¬ C < L := by omega
      simp [h, h']
    · have h' : C < L := by omega
      simp [h, h']
  · induction reqs generalizing C with
    | nil => simp [raiseTrace]
    | cons L rest ih =>
      have hstep := lock_kernel_down_le C L
      have htail := ih ((lock_kernel_down C L).2)
      simpa [raiseTrace] using And.intro hstep htail

/-- Every reachable state is one of the three selectable levels. -/
theorem reachable_mem_levels (s : Nat) (h : Reachable s) : s ∈ lockdown_levels := by
  induction h with
  | init => simp [lockdown_levels]
  | raise s L _ hL ih =>
    unfold lock_kernel_down
    by_cases hc : s ≥ L
    · simpa [hc] using ih
    · simpa [hc] using hL
  | lift k s _ ih =>
    unfold sysrq_handle_lockdown_lift
    by_cases hc : s ≠ LOCKDOWN_NONE
    · simp [hc, lift_kernel_lockdown, lockdown_levels]
    · simpa [hc] using ih

/-- C2: for a reason `K` strictly below the sentinel, the check reports
restricted (`-EPERM`) exactly when the current level is at least `K`,
reports 0 exactly when it is below `K`, and never mutates the state. -/
theorem is_locked_down_below_sentinel (s K : Nat)
    (h : K < LOCKDOWN_CONFIDENTIALITY_MAX) :
    ((lockdown_is_locked_down s K).ret = -EPERM ↔ K ≤ s)
    ∧ ((lockdown_is_locked_down s K).ret = 0 ↔ s < K)
    ∧ (lockdown_is_locked_down s K).state = s := by
  have h' : ¬ K ≥ LOCKDOWN_CONFIDENTIALITY_MAX := by omega
  unfold lockdown_is_locked_down
  by_cases hc : s ≥ K
  · have hc' : ¬ s < K := by omega
    simp [h', hc, hc', EPERM]
  · have hc' : s < K := by omega
    simp [h', hc, hc', EPERM]

/-- C2 witness: with current level `LOCKDOWN_INTEGRITY_MAX` and reason
ordinal 5, the check is restricted, non-zero, and leaves the state. -/
theorem is_locked_down_below_sentinel_witness :
    ((lockdown_is_locked_down LOCKDOWN_INTEGRITY_MAX 5).ret = -EPERM ↔ 5 ≤ LOCKDOWN_INTEGRITY_MAX)
    ∧ ((lockdown_is_locked_down LOCKDOWN_INTEGRITY_MAX 5).ret = 0 ↔ LOCKDOWN_INTEGRITY_MAX < 5)
    ∧ (lockdown_is_locked_down LOCKDOWN_INTEGRITY_MAX 5).state = LOCKDOWN_INTEGRITY_MAX :=
  is_locked_down_below_sentinel LOCKDOWN_INTEGRITY_MAX 5 (by decide)

/-- C3: for a reason `K` at or beyond the sentinel, the check fires the
defensive `WARN` flag and fails closed with `-EPERM`, independently of
the current level, leaving the state unchanged. -/
theorem is_locked_down_at_sentinel (s K : Nat)
    (h : K ≥ LOCKDOWN_CONFIDENTIALITY_MAX) :
    (lockdown_is_locked_down s K).ret = -EPERM
    ∧ (lockdown_is_locked_down s K).warned = true
    ∧ (lockdown_is_locked_down s K).state = s := by
  unfold lockdown_is_locked_down
  simp [h]

/-- C3 witness: the sentinel itself as reason, at current level 0, is
flagged and restricted. -/
theorem is_locked_down_at_sentinel_witness :
    (lockdown_is_locked_down 0 LOCKDOWN_CONFIDENTIALITY_MAX).ret = -EPERM
    ∧ (lockdown_is_locked_down 0 LOCKDOWN_CONFIDENTIALITY_MAX).warned = true
    ∧ (lockdown_is_locked_down 0 LOCKDOWN_CONFIDENTIALITY_MAX).state = 0 :=
  is_locked_down_at_sentinel 0 LOCKDOWN_CONFIDENTIALITY_MAX (by decide)

/-- C4: in every reachable state the admin read yields one of the three
expected newline-terminated lines, with the labels in the fixed order and
exactly one token bracketed; in particular at level integrity the output
is exactly the expected line. -/
theorem lockdown_read_format (s : Nat) (h : Reachable s) :
    (lockdown_read s = "[none] integrity confidentiality\n"
     ∨ lockdown_read s = "none [integrity] confidentiality\n"
     ∨ lockdown_read s = "none integrity [confidentiality]\n")
    ∧ (lockdown_read s).data.count '[' = 1
    ∧ (lockdown_read s).data.count ']' = 1
    ∧ (lockdown_read s).data.count '\n' = 1
    ∧ (lockdown_read s).back = '\n'
    ∧ lockdown_read LOCKDOWN_INTEGRITY_MAX = "none [integrity] confidentiality\n" := by
  have hs := reachable_mem_levels s h
  have hs' : s = 0 ∨ s = 15 ∨ s = 21 := by
    simpa [lockdown_levels, LOCKDOWN_NONE, LOCKDOWN_INTEGRITY_MAX,
      LOCKDOWN_CONFIDENTIALITY_MAX] using hs
  rcases hs' with h0 | h15 | h21
  · subst h0; decide
  · subst h15; decide
  · subst h21; decide

/-- C4 witness: the state `LOCKDOWN_INTEGRITY_MAX` is reachable by one
raise from the initial state, and reading there gives the exact line. -/
theorem lockdown_read_format_witness :
    lockdown_read LOCKDOWN_INTEGRITY_MAX = "none [integrity] confidentiality\n" :=
  (lockdown_read_format LOCKDOWN_INTEGRITY_MAX
    (Reachable.raise LOCKDOWN_NONE LOCKDOWN_INTEGRITY_MAX Reachable.init
      (by decide))).2.2.2.2.2

/-- Raising to `LOCKDOWN_NONE` always fails: the state is never below 0. -/
theorem lock_kernel_down_zero (s : Nat) : lock_kernel_down s 0 = (-EPERM, s) := by
  simp [lock_kernel_down]

/-- Normal form of `lockdown_write`: the scan over the three levels
resolves to a case split on the stripped payload. -/
theorem lockdown_write_shape (s : Nat) (buf : String) (n : Nat) :
    lockdown_write s buf n =
      (if strip_trailing_newline buf = "none" then
        (-EPERM, s)
      else if strip_trailing_newline buf = "integrity" then
        (if 15 ≤ s then (-EPERM, s) else ((n : Int), 15))
      else if strip_trailing_newline buf = "confidentiality" then
        (if 21 ≤ s then (-EPERM, s) else ((n : Int), 21))
      else (-EINVAL, s)) := by
  have e0 : lockdown_reasons.getD LOCKDOWN_NONE Option.none = Option.some "none" := rfl
  have e15 : lockdown_reasons.getD LOCKDOWN_INTEGRITY_MAX Option.none =
      Option.some "integrity" := rfl
  have e21 : lockdown_reasons.getD LOCKDOWN_CONFIDENTIALITY_MAX Option.none =
      Option.some "confidentiality" := rfl
  unfold lockdown_write
  simp only [lockdown_levels, List.foldl_cons, List.foldl_nil, e0, e15, e21]
  by_cases h0 : strip_trailing_newline buf = "none" <;>
    by_cases h15 : strip_trailing_newline buf = "integrity" <;>
      by_cases h21 : strip_trailing_newline buf = "confidentiality" <;>
        simp only [h0, h15, h21, if_true, if_false, LOCKDOWN_NONE,
          LOCKDOWN_INTEGRITY_MAX, LOCKDOWN_CONFIDENTIALITY_MAX,
          lock_kernel_down_zero, if_pos, if_neg] <;>
        simp_all [lock_kernel_down, EPERM, EINVAL] <;> try omega
  all_goals split_ifs <;> simp_all

/-- C5: the admin write strips one optional trailing newline and matches
the remainder exactly against the labeled level names: an unmatched (or
empty) payload yields `-EINVAL` with the state unchanged; the label of a
level not strictly above the current one yields `-EPERM` with the state
unchanged; the label of a strictly higher level raises the state to it
and returns the byte count `n`. -/
theorem lockdown_write_spec (s : Nat) (buf : String) (n : Nat) :
    (strip_trailing_newline buf ∉ ["none", "integrity", "confidentiality"] →
      lockdown_write s buf n = (-EINVAL, s))
    ∧ (strip_trailing_newline buf = "none" →
        lockdown_write s buf n = (-EPERM, s))
    ∧ (strip_trailing_newline buf = "integrity" →
        (LOCKDOWN_INTEGRITY_MAX ≤ s → lockdown_write s buf n = (-EPERM, s))
        ∧ (s < LOCKDOWN_INTEGRITY_MAX →
            lockdown_write s buf n = ((n : Int), LOCKDOWN_INTEGRITY_MAX)))
    ∧ (strip_trailing_newline buf = "confidentiality" →
        (LOCKDOWN_CONFIDENTIALITY_MAX ≤ s → lockdown_write s buf n = (-EPERM, s))
        ∧ (s < LOCKDOWN_CONFIDENTIALITY_MAX →
            lockdown_write s buf n = ((n : Int), LOCKDOWN_CONFIDENTIALITY_MAX))) := by
  have hsh := lockdown_write_shape s buf n
  refine ⟨fun hnm => ?_, fun h0 => ?_,
          fun h15 => ⟨fun hle => ?_, fun hlt => ?_⟩,
          fun h21 => ⟨fun hle => ?_, fun hlt => ?_⟩⟩
  · simp only [List.mem_cons, List.not_mem_nil, or_false, not_or] at hnm
    rw [hsh, if_neg hnm.1, if_neg hnm.2.1, if_neg hnm.2.2]
  · rw [hsh, if_pos h0]
  · have hle' : (15 : Nat) ≤ s := hle
    rw [hsh, if_neg (by simp [h15]), if_pos h15, if_pos hle']
  · have hlt' : s < 15 := hlt
    rw [hsh, if_neg (by simp [h15]), if_pos h15, if_neg (by omega)]
    rfl
  · have hle' : (21 : Nat) ≤ s := hle
    rw [hsh, if_neg (by simp [h21]), if_neg (by simp [h21]), if_pos h21,
      if_pos hle']
  · have hlt' : s < 21 := hlt
    rw [hsh, if_neg (by simp [h21]), if_neg (by simp [h21]), if_pos h21,
      if_neg (by omega)]
    rfl

/-- C5 witness: writing `"confidentiality\n"` (16 bytes) at level 0
raises to the confidentiality sentinel and returns 16. -/
theorem lockdown_write_spec_witness :
    lockdown_write 0 "confidentiality\n" 16 = ((16 : Int), LOCKDOWN_CONFIDENTIALITY_MAX) :=
  ((lockdown_write_spec 0 "confidentiality\n" 16).2.2.2 (by decide)).2 (by decide)

/-- C9: writing the label `"none"` (with or without a trailing newline)
fails with `-EPERM` and leaves the state unchanged at every current
level: `lock_kernel_down` demands strict increase and no level is below
`LOCKDOWN_NONE`, so the lowest level is listed but never selectable. -/
theorem lockdown_write_none_always_eperm (s n : Nat) :
    lockdown_write s "none" n = (-EPERM, s)
    ∧ lockdown_write s "none\n" n = (-EPERM, s) := by
  constructor
  · rw [lockdown_write_shape, if_pos (by decide)]
  · rw [lockdown_write_shape, if_pos (by decide)]

/-- C6: the `lockdown=` parameter maps `"integrity"` and
`"confidentiality"` to raises to the corresponding milestones and
returns 0; a NULL argument or any other token returns `-EINVAL` without
touching the state. -/
theorem lockdown_param_spec (s : Nat) :
    lockdown_param (Option.some "integrity") s
        = (0, (lock_kernel_down s LOCKDOWN_INTEGRITY_MAX).2)
    ∧ lockdown_param (Option.some "confidentiality") s
        = (0, (lock_kernel_down s LOCKDOWN_CONFIDENTIALITY_MAX).2)
    ∧ (∀ t : String, t ≠ "integrity" → t ≠ "confidentiality" →
        lockdown_param (Option.some t) s = (-EINVAL, s))
    ∧ lockdown_param Option.none s = (-EINVAL, s) := by
  refine ⟨rfl, rfl, fun t h1 h2 => ?_, rfl⟩
  simp [lockdown_param, h1, h2]

/-- C6 witness: the unrecognized token `"bogus"` at level 0 is rejected
with `-EINVAL` and no state change. -/
theorem lockdown_param_spec_witness :
    lockdown_param (Option.some "bogus") 0 = (-EINVAL, 0) :=
  (lockdown_param_spec 0).2.2.1 "bogus" (by decide) (by decide)

/-- C10: for a recognized token `lockdown_param` returns 0 even when the
underlying raise fails: with the build-time forced floor at
confidentiality, a later `lockdown=integrity` still returns 0 although
`lock_kernel_down` would report `-EPERM` there, and the state stays at
the floor. -/
theorem lockdown_param_discards_raise_failure (s : Nat) :
    (lockdown_param (Option.some "integrity") s).1 = 0
    ∧ (lockdown_param (Option.some "confidentiality") s).1 = 0
    ∧ (lock_kernel_down
        (lockdown_lsm_init ForceConfig.forceConfidentiality LOCKDOWN_NONE)
        LOCKDOWN_INTEGRITY_MAX).1 = -EPERM
    ∧ lockdown_param (Option.some "integrity")
        (lockdown_lsm_init ForceConfig.forceConfidentiality LOCKDOWN_NONE)
        = (0, lockdown_lsm_init ForceConfig.forceConfidentiality LOCKDOWN_NONE) :=
  ⟨rfl, rfl, by decide, by decide⟩

/-- C7 counterexample: after the sysrq lift fires at level
confidentiality the state is `LOCKDOWN_NONE`, yet the authorization
check for the reason at ordinal `LOCKDOWN_NONE` (a reason strictly below
the sentinel) still reports restricted, because the ratchet comparison
`kernel_locked_down >= what` holds at `0 >= 0`; so "not restricted for
any reason" fails at this input. -/
theorem sysrq_lift_check_counterexample :
    sysrq_handle_lockdown_lift 120 LOCKDOWN_CONFIDENTIALITY_MAX = LOCKDOWN_NONE
    ∧ (lockdown_is_locked_down
        (sysrq_handle_lockdown_lift 120 LOCKDOWN_CONFIDENTIALITY_MAX)
        LOCKDOWN_NONE).ret = -EPERM
    ∧ LOCKDOWN_NONE < LOCKDOWN_CONFIDENTIALITY_MAX := by decide

/-- C7 (amended): firing the sysrq trigger always leaves the level at
`LOCKDOWN_NONE` whatever it was, and immediately afterwards the
authorization check reports not restricted for every reason of ordinal
strictly between `LOCKDOWN_NONE` and the sentinel. -/
theorem sysrq_lift_resets_and_unrestricts (k : Int) (s what : Nat)
    (h1 : LOCKDOWN_NONE < what) (h2 : what < LOCKDOWN_CONFIDENTIALITY_MAX) :
    sysrq_handle_lockdown_lift k s = LOCKDOWN_NONE
    ∧ (lockdown_is_locked_down (sysrq_handle_lockdown_lift k s) what).ret = 0 := by
  have h1n : 0 < what := h1
  have h2n : what < 21 := h2
  have hlift : sysrq_handle_lockdown_lift k s = LOCKDOWN_NONE := by
    unfold sysrq_handle_lockdown_lift lift_kernel_lockdown
    by_cases hc : s ≠ LOCKDOWN_NONE
    · simp [hc]
    · simp only [not_not] at hc
      simp [hc]
  refine ⟨hlift, ?_⟩
  rw [hlift]
  have h2' : ¬ what ≥ LOCKDOWN_CONFIDENTIALITY_MAX := by
    show ¬ what ≥ 21
    omega
  have h1' : ¬ LOCKDOWN_NONE ≥ what := by
    show ¬ 0 ≥ what
    omega
  simp [lockdown_is_locked_down, h1', h2']

/-- C7 witness: lifting from confidentiality with sysrq key `x` resets to
`LOCKDOWN_NONE`, and the check for the reason at ordinal 5 then reports
not restricted. -/
theorem sysrq_lift_resets_and_unrestricts_witness :
    sysrq_handle_lockdown_lift 120 LOCKDOWN_CONFIDENTIALITY_MAX = LOCKDOWN_NONE
    ∧ (lockdown_is_locked_down
        (sysrq_handle_lockdown_lift 120 LOCKDOWN_CONFIDENTIALITY_MAX) 5).ret = 0 :=
  sysrq_lift_resets_and_unrestricts 120 LOCKDOWN_CONFIDENTIALITY_MAX 5
    (by decide) (by decide)

end Lockdown
